import Mathlib

/-!
Verification of the goal-to-parameter mapping service in
src/ai-python/src/main.py (class OptimizerService).

Floats in the source are only ever assigned exact decimal constants and
never combined arithmetically, so they are embedded as rationals; the
protobuf integer fields are embedded as Int.
-/

/-- Input record of OptimizeHeatParams (protobuf message HeatGoal). -/
structure HeatGoal where
  target_property : String
  desired_value : ℚ
deriving DecidableEq, Repr

/-- Output record of OptimizeHeatParams (protobuf message HeatParams). -/
structure HeatParams where
  width : Int
  height : Int
  diffusion_rate : ℚ
  time_steps : Int
  delta_t : ℚ
  delta_x : ℚ
deriving DecidableEq, Repr

/-- Input record of OptimizeNBodyParams (protobuf message NBodyGoal). -/
structure NBodyGoal where
  target_behavior : String
  body_count : Int
deriving DecidableEq, Repr

/-- Output record of OptimizeNBodyParams (protobuf message NBodyParams). -/
structure NBodyParams where
  num_bodies : Int
  time_steps : Int
  delta_t : ℚ
  g_constant : ℚ
deriving DecidableEq, Repr

/-- Embedding of OptimizerService.OptimizeHeatParams: local variables are
initialized to the baseline defaults, then conditionally overridden by the
two string-equality branches, and the HeatParams message is built from the
final values. The print call is observability only and is not modelled. -/
def OptimizeHeatParams (request : HeatGoal) : HeatParams :=
  let width : Int := 100
  let height : Int := 100
  let time_steps : Int := 100
  let delta_t : ℚ := 1/10
  let delta_x : ℚ := 1
  let diffusion_rate : ℚ := 1
  let (diffusion_rate, time_steps, delta_t) :=
    if request.target_property = "fast_diffusion" then
      (5, 50, delta_t)
    else if request.target_property = "stable" then
      (1/2, time_steps, 1/20)
    else
      (diffusion_rate, time_steps, delta_t)
  { width := width, height := height, diffusion_rate := diffusion_rate,
    time_steps := time_steps, delta_t := delta_t, delta_x := delta_x }

/-- Embedding of OptimizerService.OptimizeNBodyParams: num_bodies comes from
the request when positive (else 100), the remaining locals start at the
baseline defaults and are conditionally overridden by the two
string-equality branches. The print call is not modelled. -/
def OptimizeNBodyParams (request : NBodyGoal) : NBodyParams :=
  let num_bodies : Int := if request.body_count > 0 then request.body_count else 100
  let time_steps : Int := 200
  let delta_t : ℚ := 1/100
  let g_constant : ℚ := 1
  let (g_constant, delta_t) :=
    if request.target_behavior = "minimize_collisions" then
      (1/2, 1/200)
    else if request.target_behavior = "high_activity" then
      (5, 1/50)
    else
      (g_constant, delta_t)
  { num_bodies := num_bodies, time_steps := time_steps, delta_t := delta_t,
    g_constant := g_constant }

/-- C1: for every HeatGoal whose target_property equals "fast_diffusion",
OptimizeHeatParams returns width=100, height=100, diffusion_rate=5.0,
time_steps=50, delta_t=0.1, delta_x=1.0, regardless of desired_value. -/
theorem C1_heat_fast_diffusion (g : HeatGoal)
    (h : g.target_property = "fast_diffusion") :
    OptimizeHeatParams g =
      { width := 100, height := 100, diffusion_rate := 5, time_steps := 50,
        delta_t := 1/10, delta_x := 1 } := by
  simp [OptimizeHeatParams, h]

/-- Witness for C1 at a concrete goal with a nonzero desired_value. -/
theorem C1_heat_fast_diffusion_witness :
    OptimizeHeatParams { target_property := "fast_diffusion", desired_value := 7 } =
      { width := 100, height := 100, diffusion_rate := 5, time_steps := 50,
        delta_t := 1/10, delta_x := 1 } :=
  C1_heat_fast_diffusion { target_property := "fast_diffusion", desired_value := 7 } rfl

/-- C2: for every HeatGoal whose target_property equals "stable",
OptimizeHeatParams returns width=100, height=100, diffusion_rate=0.5,
time_steps=100, delta_t=0.05, delta_x=1.0, regardless of desired_value. -/
theorem C2_heat_stable (g : HeatGoal)
    (h : g.target_property = "stable") :
    OptimizeHeatParams g =
      { width := 100, height := 100, diffusion_rate := 1/2, time_steps := 100,
        delta_t := 1/20, delta_x := 1 } := by
  simp [OptimizeHeatParams, h]

/-- Witness for C2 at a concrete goal with desired_value 42. -/
theorem C2_heat_stable_witness :
    OptimizeHeatParams { target_property := "stable", desired_value := 42 } =
      { width := 100, height := 100, diffusion_rate := 1/2, time_steps := 100,
        delta_t := 1/20, delta_x := 1 } :=
  C2_heat_stable { target_property := "stable", desired_value := 42 } rfl

/-- C3: for every HeatGoal whose target_property is neither "fast_diffusion"
nor "stable" (including the empty string), OptimizeHeatParams returns the
baseline HeatParams (100, 100, 1.0, 100, 0.1, 1.0). -/
theorem C3_heat_baseline (g : HeatGoal)
    (h1 : g.target_property ≠ "fast_diffusion")
    (h2 : g.target_property ≠ "stable") :
    OptimizeHeatParams g =
      { width := 100, height := 100, diffusion_rate := 1, time_steps := 100,
        delta_t := 1/10, delta_x := 1 } := by
  simp [OptimizeHeatParams, h1, h2]

/-- Witness for C3 at the concrete goal "unknown_xyz" and at the empty string. -/
theorem C3_heat_baseline_witness :
    OptimizeHeatParams { target_property := "unknown_xyz", desired_value := 1 } =
      { width := 100, height := 100, diffusion_rate := 1, time_steps := 100,
        delta_t := 1/10, delta_x := 1 } ∧
    OptimizeHeatParams { target_property := "", desired_value := 0 } =
      { width := 100, height := 100, diffusion_rate := 1, time_steps := 100,
        delta_t := 1/10, delta_x := 1 } :=
  ⟨C3_heat_baseline { target_property := "unknown_xyz", desired_value := 1 }
      (by decide) (by decide),
   C3_heat_baseline { target_property := "", desired_value := 0 }
      (by decide) (by decide)⟩

/-- C4: for every NBodyGoal, the g_constant, delta_t and time_steps of the
result follow the rule table: "minimize_collisions" gives (0.5, 0.005, 200),
"high_activity" gives (5.0, 0.02, 200), anything else the baselines
(1.0, 0.01, 200). -/
theorem C4_nbody_rule_table (g : NBodyGoal) :
    (OptimizeNBodyParams g).g_constant =
      (if g.target_behavior = "minimize_collisions" then 1/2
       else if g.target_behavior = "high_activity" then 5 else 1) ∧
    (OptimizeNBodyParams g).delta_t =
      (if g.target_behavior = "minimize_collisions" then 1/200
       else if g.target_behavior = "high_activity" then 1/50 else 1/100) ∧
    (OptimizeNBodyParams g).time_steps = 200 := by
  by_cases h1 : g.target_behavior = "minimize_collisions"
  · simp [OptimizeNBodyParams, h1]
  · by_cases h2 : g.target_behavior = "high_activity"
    · simp [OptimizeNBodyParams, h1, h2]
    · simp [OptimizeNBodyParams, h1, h2]

/-- C5: for every NBodyGoal, num_bodies equals goal.body_count when
body_count > 0 and 100 otherwise, independently of target_behavior; in
particular body_count 0 and -5 both yield 100 and body_count 7 yields 7. -/
theorem C5_num_bodies :
    (∀ g : NBodyGoal, (OptimizeNBodyParams g).num_bodies =
        if g.body_count > 0 then g.body_count else 100) ∧
    (OptimizeNBodyParams { target_behavior := "", body_count := 0 }).num_bodies = 100 ∧
    (OptimizeNBodyParams { target_behavior := "", body_count := -5 }).num_bodies = 100 ∧
    (OptimizeNBodyParams { target_behavior := "", body_count := 7 }).num_bodies = 7 := by
  refine ⟨fun g => ?_, rfl, rfl, rfl⟩
  by_cases h1 : g.target_behavior = "minimize_collisions"
  · simp [OptimizeNBodyParams, h1]
  · by_cases h2 : g.target_behavior = "high_activity"
    · simp [OptimizeNBodyParams, h1, h2]
    · simp [OptimizeNBodyParams, h1, h2]

/-- C6: both operations are total functions of the goal record: on every
input they return a parameter bundle with every field populated, with no
error value or exceptional outcome in their codomain. -/
theorem C6_total_and_fully_populated :
    (∀ g : HeatGoal, ∃ w h dr ts dt dx,
        OptimizeHeatParams g =
          { width := w, height := h, diffusion_rate := dr, time_steps := ts,
            delta_t := dt, delta_x := dx }) ∧
    (∀ g : NBodyGoal, ∃ nb ts dt gc,
        OptimizeNBodyParams g =
          { num_bodies := nb, time_steps := ts, delta_t := dt, g_constant := gc }) :=
  ⟨fun g => ⟨(OptimizeHeatParams g).width, (OptimizeHeatParams g).height,
      (OptimizeHeatParams g).diffusion_rate, (OptimizeHeatParams g).time_steps,
      (OptimizeHeatParams g).delta_t, (OptimizeHeatParams g).delta_x, rfl⟩,
   fun g => ⟨(OptimizeNBodyParams g).num_bodies, (OptimizeNBodyParams g).time_steps,
      (OptimizeNBodyParams g).delta_t, (OptimizeNBodyParams g).g_constant, rfl⟩⟩

/-- C7: OptimizeHeatParams never depends on desired_value: two goals with the
same target_property produce identical HeatParams. -/
theorem C7_desired_value_unused (g1 g2 : HeatGoal)
    (h : g1.target_property = g2.target_property) :
    OptimizeHeatParams g1 = OptimizeHeatParams g2 := by
  simp [OptimizeHeatParams, h]

/-- Witness for C7: two concrete goals differing only in desired_value. -/
theorem C7_desired_value_unused_witness :
    OptimizeHeatParams { target_property := "stable", desired_value := 0 } =
      OptimizeHeatParams { target_property := "stable", desired_value := 42 } :=
  C7_desired_value_unused { target_property := "stable", desired_value := 0 }
    { target_property := "stable", desired_value := 42 } rfl

/-- C8: both operations are deterministic pure functions of their input
record: identical inputs yield identical outputs. -/
theorem C8_deterministic (g1 g2 : HeatGoal) (n1 n2 : NBodyGoal)
    (hg : g1 = g2) (hn : n1 = n2) :
    OptimizeHeatParams g1 = OptimizeHeatParams g2 ∧
    OptimizeNBodyParams n1 = OptimizeNBodyParams n2 :=
  ⟨congrArg OptimizeHeatParams hg, congrArg OptimizeNBodyParams hn⟩

/-- Witness for C8 at concrete repeated inputs. -/
theorem C8_deterministic_witness :
    OptimizeHeatParams { target_property := "fast_diffusion", desired_value := 1 } =
      OptimizeHeatParams { target_property := "fast_diffusion", desired_value := 1 } ∧
    OptimizeNBodyParams { target_behavior := "high_activity", body_count := 300 } =
      OptimizeNBodyParams { target_behavior := "high_activity", body_count := 300 } :=
  C8_deterministic { target_property := "fast_diffusion", desired_value := 1 }
    { target_property := "fast_diffusion", desired_value := 1 }
    { target_behavior := "high_activity", body_count := 300 }
    { target_behavior := "high_activity", body_count := 300 } rfl rfl

/-- C9: the fields outside the rule tables keep their baselines in every
output: width=100, height=100, delta_x=1.0 for every HeatGoal, and
time_steps=200 for every NBodyGoal. -/
theorem C9_frame_fields (g : HeatGoal) (n : NBodyGoal) :
    (OptimizeHeatParams g).width = 100 ∧
    (OptimizeHeatParams g).height = 100 ∧
    (OptimizeHeatParams g).delta_x = 1 ∧
    (OptimizeNBodyParams n).time_steps = 200 := by
  refine ⟨?_, ?_, ?_, ?_⟩ <;>
  · first
    | (by_cases h1 : g.target_property = "fast_diffusion"
       · simp [OptimizeHeatParams, h1]
       · by_cases h2 : g.target_property = "stable" <;>
           simp [OptimizeHeatParams, h1, h2])
    | (by_cases h1 : n.target_behavior = "minimize_collisions"
       · simp [OptimizeNBodyParams, h1]
       · by_cases h2 : n.target_behavior = "high_activity" <;>
           simp [OptimizeNBodyParams, h1, h2])

/-- C10: for every NBodyGoal, including non-positive body_count, the
resulting num_bodies is strictly positive. -/
theorem C10_num_bodies_positive (g : NBodyGoal) :
    0 < (OptimizeNBodyParams g).num_bodies := by
  have hnb : (OptimizeNBodyParams g).num_bodies =
      if g.body_count > 0 then g.body_count else 100 := by
    by_cases h1 : g.target_behavior = "minimize_collisions"
    · simp [OptimizeNBodyParams, h1]
    · by_cases h2 : g.target_behavior = "high_activity" <;>
        simp [OptimizeNBodyParams, h1, h2]
  rw [hnb]
  split
  · assumption
  · decide
